import Mathlib

/-!
Verification of the 2D scene engine's live-composition layer, modelled
shallowly from the C++ sources: the shader hot-reload protocol
(Shader.cpp, FileWatcher.h), the camera's bounded world-to-screen focus
(Camera.cpp), the sprite-animation frame state machine
(SpriteAnimator.cpp), the tile-grid collision queries (Tilemap.cpp) and
warp zones (WarpZone.h).

Machine floats are modelled as rationals, OpenGL handles as naturals and
filesystem timestamps as integers. The filesystem and graphics
collaborators are passed in explicitly as environments of total
functions, with each call's error path folded into its returned value
exactly as the C++ helpers do: a failed `readFile` returns the empty
string, a failed `compileShader` returns the handle 0, a failed
`last_write_time` returns the sentinel minimum time.
-/

namespace Engine

/-- 2D vector with rational components (source: Vector2.h, float fields). -/
structure Vector2 where
  x : ℚ
  y : ℚ
deriving DecidableEq, Repr

/-- Camera state (source: Camera.h): focus position, integer viewport
dimensions and the world bounds set by `setWorldBounds`. -/
structure Camera where
  position : Vector2
  viewportWidth : ℤ
  viewportHeight : ℤ
  worldMin : Vector2
  worldMax : Vector2
deriving DecidableEq, Repr

/-- Source: Camera.cpp, Camera::clamp. -/
def Camera.clamp (value min max : ℚ) : ℚ :=
  if value < min then min
  else if value > max then max
  else value

/-- Source: Camera.cpp, Camera::centerOn: set the focus to the target,
clamp per axis to `[worldMin + half viewport, worldMax - half viewport]`,
then override each axis with the world midpoint when the world extent on
that axis is strictly smaller than the viewport extent. -/
def Camera.centerOn (cam : Camera) (target : Vector2) : Camera :=
  let halfWidth : ℚ := (cam.viewportWidth : ℚ) / 2
  let halfHeight : ℚ := (cam.viewportHeight : ℚ) / 2
  let minX := cam.worldMin.x + halfWidth
  let maxX := cam.worldMax.x - halfWidth
  let minY := cam.worldMin.y + halfHeight
  let maxY := cam.worldMax.y - halfHeight
  let px := Camera.clamp target.x minX maxX
  let py := Camera.clamp target.y minY maxY
  let px' := if cam.worldMax.x - cam.worldMin.x < (cam.viewportWidth : ℚ) then
    (cam.worldMax.x + cam.worldMin.x) / 2 else px
  let py' := if cam.worldMax.y - cam.worldMin.y < (cam.viewportHeight : ℚ) then
    (cam.worldMax.y + cam.worldMin.y) / 2 else py
  { cam with position := ⟨px', py'⟩ }

namespace Tile

/-- Source: Tilemap.cpp, `enum Tile`. -/
def GRASS : ℤ := 0

/-- Source: Tilemap.cpp, `enum Tile`. -/
def DIRT : ℤ := 1

/-- Source: Tilemap.cpp, `enum Tile`. -/
def WATER : ℤ := 2

end Tile

/-- Tile grid (source: Tilemap.h): dense row-major storage of tile ids. -/
structure Tilemap where
  width : ℕ
  height : ℕ
  tileSize : ℕ
  tiles : List ℤ
deriving DecidableEq, Repr

/-- Source: Tilemap.cpp, Tilemap::getTile: `tiles[y * width + x]`, an
unchecked vector access. The claims quantify over in-range coordinates
(the defined case); an out-of-range read, undefined in the C++, defaults
to 0 here. -/
def Tilemap.getTile (m : Tilemap) (x y : ℕ) : ℤ :=
  m.tiles.getD (y * m.width + x) 0

/-- Source: Tilemap.cpp, Tilemap::isSolid: `tileID != WATER`. -/
def Tilemap.isSolid (m : Tilemap) (x y : ℕ) : Bool :=
  m.getTile x y != Tile.WATER

/-- Source: Tilemap.cpp, Tilemap::isWalkable:
`tileID == GRASS || tileID == DIRT`. -/
def Tilemap.isWalkable (m : Tilemap) (x y : ℕ) : Bool :=
  m.getTile x y == Tile.GRASS || m.getTile x y == Tile.DIRT

/-- Source: Tilemap.cpp, Tilemap::setTile: `int tile = getTile(x, y);
tiles[tile] = tileID;` — the write is indexed by the stored tile id, not
by the linear index `y * width + x`. A negative or too-large stored id
makes the C++ write undefined; here `List.set` leaves the list unchanged
past the end and `Int.toNat` sends negatives to 0, and the claims only
rely on in-range nonnegative ids. -/
def Tilemap.setTile (m : Tilemap) (x y : ℕ) (tileID : ℤ) : Tilemap :=
  let tile := m.getTile x y
  { m with tiles := m.tiles.set tile.toNat tileID }

/-- Warp zone (source: WarpZone.h). -/
structure WarpZone where
  x : ℚ
  y : ℚ
  width : ℚ
  height : ℚ
  destinationId : String
  spawnPosition : Vector2
deriving DecidableEq, Repr

/-- Source: WarpZone.h, WarpZone::contains: inclusive comparisons on all
four sides. -/
def WarpZone.contains (z : WarpZone) (p : Vector2) : Bool :=
  decide (z.x ≤ p.x) && decide (p.x ≤ z.x + z.width) &&
  decide (z.y ≤ p.y) && decide (p.y ≤ z.y + z.height)

/-- Filesystem capability `fs::last_write_time`, with its error path
folded into the returned value (`file_time_type::min()` becomes an
ordinary integer the environment chooses), exactly as the sources'
`getModTime` helpers catch the exception and return the sentinel. -/
structure FSEnv where
  modTime : String → ℤ

/-- Watcher state (source: FileWatcher.h): parallel vectors of watched
paths and their recorded modification times; the constructors keep the
two the same length. -/
structure FileWatcher where
  paths : List String
  lastModified : List ℤ
deriving DecidableEq, Repr

/-- Source: FileWatcher.h, FileWatcher::hasChanged: compares, index by
index, the fresh modification time of each watched path with the
recorded one. -/
def FileWatcher.hasChanged (env : FSEnv) (w : FileWatcher) : Bool :=
  (w.paths.zip w.lastModified).any fun pt => env.modTime pt.1 != pt.2

/-- Source: FileWatcher.h, FileWatcher::updateTimestamps. The loop body
is `getModTime(paths[i]) = lastModified[i];`: it assigns the recorded
value into the temporary returned by `getModTime`, so the stored
`lastModified` vector is never written and the watcher object is left
exactly as it was. -/
def FileWatcher.updateTimestamps (_env : FSEnv) (w : FileWatcher) : FileWatcher :=
  w

/-- The two shader stages of Shader.cpp (GL_VERTEX_SHADER /
GL_FRAGMENT_SHADER). -/
inductive Stage where
  | vertex
  | fragment
deriving DecidableEq, Repr

/-- Graphics and filesystem calls recorded by `Shader.reload`, in the
order the source makes them, plus the assignment to the `programID`
field, so that the relative order of destroy-old and reassign is part of
the model. -/
inductive GLEvent where
  | compileStage (stage : Stage) (handle : ℕ)
  | createProgram (handle : ℕ)
  | attachShader (program shader : ℕ)
  | linkProgram (program : ℕ)
  | deleteShader (handle : ℕ)
  | deleteProgram (handle : ℕ)
  | setProgramField (handle : ℕ)
deriving DecidableEq, Repr

/-- The graphics/filesystem collaborators a `Shader` consumes, as total
functions: `readFile` yields the empty string for an unreadable file
(Shader::readFile), `compileShader` yields handle 0 on a compile error
(Shader::compileShader), `createProgram` is the handle `glCreateProgram`
returns, `linkStatus` is the `GL_LINK_STATUS` the driver reports for a
program, and `modTime` is `getFileModTime` with its error sentinel folded
into the returned integer. -/
structure GLEnv where
  readFile : String → String
  compileShader : Stage → String → ℕ
  createProgram : ℕ
  linkStatus : ℕ → Bool
  modTime : String → ℤ

/-- The mutable fields of a `Shader` object (source: Shader.h). -/
structure ShaderState where
  programID : ℕ
  vertexPath : String
  fragmentPath : String
  vertexLastModified : ℤ
  fragmentLastModified : ℤ
deriving DecidableEq, Repr

/-- Source: Shader.cpp, Shader::Shader (lines 4-50). Read both sources,
compile both stages, then create and link the program. Note that the
link-status check only logs: `programID` keeps the freshly created
program handle even when `GL_LINK_STATUS` is false. -/
def Shader.construct (env : GLEnv) (vertexPath fragmentPath : String) :
    ShaderState :=
  let st0 : ShaderState :=
    { programID := 0
      vertexPath := vertexPath
      fragmentPath := fragmentPath
      vertexLastModified := env.modTime vertexPath
      fragmentLastModified := env.modTime fragmentPath }
  let vertexSource := env.readFile vertexPath
  let fragmentSource := env.readFile fragmentPath
  if vertexSource = "" ∨ fragmentSource = "" then st0
  else
    let vertexShader := env.compileShader Stage.vertex vertexSource
    let fragmentShader := env.compileShader Stage.fragment fragmentSource
    if vertexShader = 0 ∨ fragmentShader = 0 then st0
    else
      { st0 with programID := env.createProgram }

/-- What one call to `Shader::reload` returns and does: the boolean the
caller sees, the shader's fields afterwards, and the recorded calls. -/
structure ReloadResult where
  ok : Bool
  state : ShaderState
  events : List GLEvent
deriving Repr

/-- Source: Shader.cpp, Shader::reload (lines 154-204): read both
sources fresh (abort on an unreadable or empty file), compile both
stages (abort and delete the partial results on a compile error), build
and link the new program (abort and delete it on a link error); on
success delete the old program first, then assign `programID = newProgram`
and re-stat both timestamps. -/
def Shader.reload (env : GLEnv) (st : ShaderState) : ReloadResult :=
  let vertexSource := env.readFile st.vertexPath
  let fragmentSource := env.readFile st.fragmentPath
  if vertexSource = "" ∨ fragmentSource = "" then
    { ok := false, state := st, events := [] }
  else
    let newVertexShader := env.compileShader Stage.vertex vertexSource
    let newFragmentShader := env.compileShader Stage.fragment fragmentSource
    let compiled : List GLEvent :=
      [.compileStage Stage.vertex newVertexShader,
       .compileStage Stage.fragment newFragmentShader]
    if newVertexShader = 0 ∨ newFragmentShader = 0 then
      { ok := false
        state := st
        events := compiled ++
          (if newVertexShader ≠ 0 then [.deleteShader newVertexShader] else []) ++
          (if newFragmentShader ≠ 0 then [.deleteShader newFragmentShader] else []) }
    else
      let newProgram := env.createProgram
      let built := compiled ++
        [.createProgram newProgram,
         .attachShader newProgram newVertexShader,
         .attachShader newProgram newFragmentShader,
         .linkProgram newProgram,
         .deleteShader newVertexShader,
         .deleteShader newFragmentShader]
      if env.linkStatus newProgram = false then
        { ok := false, state := st, events := built ++ [.deleteProgram newProgram] }
      else
        { ok := true
          state :=
            { st with
                programID := newProgram
                vertexLastModified := env.modTime st.vertexPath
                fragmentLastModified := env.modTime st.fragmentPath }
          events := built ++
            (if st.programID ≠ 0 then [.deleteProgram st.programID] else []) ++
            [.setProgramField newProgram] }

/-- Source: Shader.cpp, Shader::hasFileChanged (lines 146-152). -/
def Shader.hasFileChanged (env : GLEnv) (st : ShaderState) : Bool :=
  env.modTime st.vertexPath != st.vertexLastModified ||
  env.modTime st.fragmentPath != st.fragmentLastModified

/-- Source: Shader.cpp, Shader::checkReload (lines 206-211). -/
def Shader.checkReload (env : GLEnv) (st : ShaderState) : Bool × ShaderState :=
  if Shader.hasFileChanged env st then
    let r := Shader.reload env st
    (r.ok, r.state)
  else (false, st)

/-- `occursBefore l a b` holds when some occurrence of `a` appears
strictly before some occurrence of `b` in `l`. -/
def occursBefore : List GLEvent → GLEvent → GLEvent → Bool
  | [], _, _ => false
  | e :: rest, a, b => (e == a && rest.contains b) || occursBefore rest a b

/-- Source: Animation.h. `float frameDuration` becomes a rational; the
`int` frame count is a natural (the update loop treats any count below 2
as a static pose, which covers the nonpositive ints). -/
structure Animation where
  name : String
  row : ℤ
  frameCount : ℕ
  frameDuration : ℚ
  loop : Bool
deriving DecidableEq, Repr

/-- Adds one to the iteration count of a loop result, keeping the frame
and the accumulated time: one more pass of the while-loop body was run
around the recursive remainder. -/
def bump (r : ℕ × ℚ × ℕ) : ℕ × ℚ × ℕ :=
  (r.1, r.2.1, r.2.2 + 1)

/-- The catch-up while-loop of SpriteAnimator::update (SpriteAnimator.cpp
lines 45-58): while the accumulated time covers one frame, consume one
`frameDuration` slice and advance the frame, wrapping to 0 on a looping
animation and, on a non-looping one, clamping to the last frame with the
accumulated time zeroed and breaking out. Returns the final frame, the
final accumulated time and the number of loop iterations executed. The
C++ loop terminates only for a positive `frameDuration` (every claim
below assumes one); the model returns immediately on a non-positive
duration to stay total. -/
def runLoop (loopFlag : Bool) (frameCount : ℕ) (frameDuration : ℚ)
    (currentFrame : ℕ) (ellapsedTime : ℚ) : ℕ × ℚ × ℕ :=
  if _h : 0 < frameDuration ∧ frameDuration ≤ ellapsedTime then
    if frameCount ≤ currentFrame + 1 then
      if loopFlag then
        bump (runLoop loopFlag frameCount frameDuration 0
          (ellapsedTime - frameDuration))
      else (frameCount - 1, 0, 1)
    else
      bump (runLoop loopFlag frameCount frameDuration (currentFrame + 1)
        (ellapsedTime - frameDuration))
  else (currentFrame, ellapsedTime, 0)
termination_by (⌊ellapsedTime / frameDuration⌋).toNat
decreasing_by
  all_goals
    have hfd : 0 < frameDuration := _h.1
    have hle : frameDuration ≤ ellapsedTime := _h.2
    have hstep : (ellapsedTime - frameDuration) / frameDuration =
        ellapsedTime / frameDuration - 1 := by
      field_simp
    have hone : (1 : ℤ) ≤ ⌊ellapsedTime / frameDuration⌋ := by
      rw [Int.le_floor]
      push_cast
      exact (one_le_div hfd).mpr hle
    have hfloor : ⌊(ellapsedTime - frameDuration) / frameDuration⌋ =
        ⌊ellapsedTime / frameDuration⌋ - 1 := by
      rw [hstep]
      exact_mod_cast Int.floor_sub_int (ellapsedTime / frameDuration) 1
    simp only [hfloor]
    omega

/-- The animator fields SpriteAnimator::update touches (source:
SpriteAnimator.h): the active animation (null when inactive), the frame
index and the accumulated time, with the source's spelling kept. -/
structure SpriteAnimator where
  currentAnimation : Option Animation
  currentFrame : ℕ
  ellapsedTime : ℚ
deriving DecidableEq, Repr

/-- Source: SpriteAnimator.cpp, SpriteAnimator::update (lines 39-61):
return unchanged when inactive or when the active animation is a static
pose (`frameCount <= 1`); otherwise accumulate the delta and run the
catch-up loop. -/
def SpriteAnimator.update (s : SpriteAnimator) (deltaTime : ℚ) :
    SpriteAnimator :=
  match s.currentAnimation with
  | none => s
  | some a =>
    if a.frameCount ≤ 1 then s
    else
      let r := runLoop a.loop a.frameCount a.frameDuration s.currentFrame
        (s.ellapsedTime + deltaTime)
      { s with currentFrame := r.1, ellapsedTime := r.2.1 }

/-- The number of iterations the catch-up while-loop executes during one
`SpriteAnimator.update` call. -/
def SpriteAnimator.updateIterations (s : SpriteAnimator) (deltaTime : ℚ) :
    ℕ :=
  match s.currentAnimation with
  | none => 0
  | some a =>
    if a.frameCount ≤ 1 then 0
    else
      (runLoop a.loop a.frameCount a.frameDuration s.currentFrame
        (s.ellapsedTime + deltaTime)).2.2

/-- A point on the boundary of the closed warp-zone box: on the left or
right edge within the vertical span, or on the bottom or top edge within
the horizontal span. This is the claim's notion of boundary, stated
separately so it can be compared with `WarpZone.contains`. -/
def WarpZone.onBoundary (z : WarpZone) (p : Vector2) : Prop :=
  ((p.x = z.x ∨ p.x = z.x + z.width) ∧ z.y ≤ p.y ∧ p.y ≤ z.y + z.height) ∨
  ((p.y = z.y ∨ p.y = z.y + z.height) ∧ z.x ≤ p.x ∧ p.x ≤ z.x + z.width)

/-! Concrete fixtures used by the closed evaluations and witnesses. -/

/-- 3x3 grid of GRASS with WATER at cell (1,1), the spec's scenario. -/
def wm3 : Tilemap := ⟨3, 3, 32, [0, 0, 0, 0, 2, 0, 0, 0, 0]⟩

/-- 2x2 grid whose cell (0,0) stores tile id 3, different from its linear
index 0. -/
def idxMap : Tilemap := ⟨2, 2, 32, [3, 0, 0, 0]⟩

/-- The spec's 10x10 warp zone at the origin. -/
def zone10 : WarpZone := ⟨0, 0, 10, 10, "overworld", ⟨5, 5⟩⟩

/-- Camera with a 100x50 viewport over a 200-wide, 30-tall world: the x
extent dominates the viewport, the y extent is smaller than it. -/
def camA : Camera := ⟨⟨0, 0⟩, 100, 50, ⟨0, 0⟩, ⟨200, 30⟩⟩

/-- The spec's looping example animation: 4 frames of 0.1 s. -/
def walkAnim : Animation := ⟨"walk", 0, 4, 1/10, true⟩

/-- The spec's non-looping example animation: 3 frames of 0.2 s. -/
def dieAnim : Animation := ⟨"die", 1, 3, 1/5, false⟩

/-- A looping 2-frame animation with 1 s frames, used to count loop
iterations under a large delta. -/
def spinAnim : Animation := ⟨"spin", 0, 2, 1, true⟩

/-- Filesystem whose files all report modification time 1. -/
def fsA : FSEnv := ⟨fun _ => 1⟩

/-- A watcher that recorded modification time 0 for its one path. -/
def fwA : FileWatcher := ⟨["tileset.png"], [0]⟩

/-- Environment where both sources read and compile but the program link
fails: `linkStatus` reports false for every program. -/
def badLinkEnv : GLEnv := ⟨fun _ => "shader source", fun _ _ => 5, 7, fun _ => false, fun _ => 0⟩

/-- Environment where every reload step succeeds. -/
def okEnv : GLEnv := ⟨fun _ => "shader source", fun _ _ => 5, 7, fun _ => true, fun _ => 1⟩

/-- Environment whose files are unreadable: every read yields the empty
string. -/
def emptyReadEnv : GLEnv := ⟨fun _ => "", fun _ _ => 5, 7, fun _ => true, fun _ => 1⟩

/-- A shader holding a previously linked program, handle 3. -/
def stApp : ShaderState := ⟨3, "shader.vert", "shader.frag", 10, 20⟩

/-! Closed forms for the catch-up loop. -/

theorem runLoop_loop_closed (frameCount : ℕ) (frameDuration : ℚ)
    (hfd : 0 < frameDuration) (hc : 0 < frameCount) :
    ∀ (n : ℕ) (e : ℚ) (f : ℕ), 0 ≤ e → f < frameCount →
      ⌊e / frameDuration⌋ = n →
      runLoop true frameCount frameDuration f e
        = ((f + n) % frameCount, e - n * frameDuration, n) := by
  intro n
  induction n with
  | zero =>
    intro e f he hf hfloor
    have hlt : e < frameDuration := by
      have h01 := Int.floor_eq_zero_iff.mp (by exact_mod_cast hfloor)
      exact (div_lt_one hfd).mp h01.2
    rw [runLoop, dif_neg (by push_neg; intro _; linarith)]
    simp [Nat.mod_eq_of_lt hf]
  | succ m ih =>
    intro e f he hf hfloor
    have hle : frameDuration ≤ e := by
      have h1 : (1 : ℤ) ≤ ⌊e / frameDuration⌋ := by
        rw [hfloor]; exact_mod_cast Nat.succ_le_succ (Nat.zero_le m)
      rw [Int.le_floor] at h1
      push_cast at h1
      exact (one_le_div hfd).mp h1
    have hstep : (e - frameDuration) / frameDuration =
        e / frameDuration - 1 := by
      field_simp
    have hfloor' : ⌊(e - frameDuration) / frameDuration⌋ = (m : ℤ) := by
      rw [hstep, show (1 : ℚ) = ((1 : ℤ) : ℚ) from by norm_num,
        Int.floor_sub_int, hfloor]
      push_cast
      ring
    have he' : (0 : ℚ) ≤ e - frameDuration := by linarith
    rw [runLoop, dif_pos ⟨hfd, hle⟩]
    by_cases hcase : frameCount ≤ f + 1
    · have hfc : f + 1 = frameCount := by omega
      rw [if_pos hcase, if_pos rfl, ih (e - frameDuration) 0 he' hc hfloor']
      simp only [bump, Prod.mk.injEq]
      refine ⟨?_, ?_, trivial⟩
      · rw [Nat.zero_add, show f + (m + 1) = frameCount + m from by omega,
          Nat.add_mod_left]
      · push_cast
        ring
    · rw [if_neg hcase,
        ih (e - frameDuration) (f + 1) he' (by omega) hfloor']
      simp only [bump, Prod.mk.injEq]
      refine ⟨?_, ?_, trivial⟩
      · rw [show f + 1 + m = f + (m + 1) from by omega]
      · push_cast
        ring

theorem runLoop_noLoop_clamps (frameCount : ℕ) (frameDuration : ℚ)
    (hfd : 0 < frameDuration) :
    ∀ (k : ℕ) (f : ℕ) (e : ℚ), frameCount - f = k + 1 →
      ((k : ℚ) + 1) * frameDuration ≤ e →
      runLoop false frameCount frameDuration f e
        = (frameCount - 1, 0, k + 1) := by
  intro k
  induction k with
  | zero =>
    intro f e hk he
    have hle : frameDuration ≤ e := by push_cast at he; linarith
    rw [runLoop, dif_pos ⟨hfd, hle⟩, if_pos (by omega)]
    simp
  | succ j ih =>
    intro f e hk he
    have hle : frameDuration ≤ e := by
      have hnn : (0 : ℚ) ≤ ((j : ℚ) + 1) * frameDuration := by positivity
      push_cast at he
      nlinarith
    rw [runLoop, dif_pos ⟨hfd, hle⟩, if_neg (by omega),
      ih (f + 1) (e - frameDuration) (by omega) (by push_cast at he ⊢; linarith)]
    simp [bump]

theorem runLoop_noLoop_iterations_le (frameCount : ℕ) (frameDuration : ℚ)
    (hfd : 0 < frameDuration) :
    ∀ (n : ℕ) (e : ℚ) (f : ℕ), (⌊e / frameDuration⌋).toNat = n →
      f < frameCount →
      (runLoop false frameCount frameDuration f e).2.2 ≤ frameCount - f := by
  intro n
  induction n with
  | zero =>
    intro e f hn hf
    by_cases hg : 0 < frameDuration ∧ frameDuration ≤ e
    · exfalso
      have h1 : (1 : ℤ) ≤ ⌊e / frameDuration⌋ := by
        rw [Int.le_floor]
        push_cast
        exact (one_le_div hfd).mpr hg.2
      omega
    · rw [runLoop, dif_neg hg]
      exact Nat.zero_le _
  | succ m ih =>
    intro e f hn hf
    by_cases hg : 0 < frameDuration ∧ frameDuration ≤ e
    · have hstep : (e - frameDuration) / frameDuration =
          e / frameDuration - 1 := by
        field_simp
      have hfloor' : ⌊(e - frameDuration) / frameDuration⌋ =
          ⌊e / frameDuration⌋ - 1 := by
        rw [hstep, show (1 : ℚ) = ((1 : ℤ) : ℚ) from by norm_num,
          Int.floor_sub_int]
      have hn' : (⌊(e - frameDuration) / frameDuration⌋).toNat = m := by
        have h1 : (1 : ℤ) ≤ ⌊e / frameDuration⌋ := by
          rw [Int.le_floor]
          push_cast
          exact (one_le_div hfd).mpr hg.2
        omega
      rw [runLoop, dif_pos hg]
      by_cases hcase : frameCount ≤ f + 1
      · rw [if_pos hcase]
        simp only [Bool.false_eq_true, if_false]
        omega
      · rw [if_neg hcase]
        have hrec := ih (e - frameDuration) (f + 1) hn' (by omega)
        simp only [bump]
        omega
    · rw [runLoop, dif_neg hg]
      exact Nat.zero_le _

theorem runLoop_terminal_hold (frameCount : ℕ) (frameDuration : ℚ)
    (hfd : 0 < frameDuration) (e : ℚ) :
    runLoop false frameCount frameDuration (frameCount - 1) e
      = if frameDuration ≤ e then (frameCount - 1, 0, 1)
        else (frameCount - 1, e, 0) := by
  by_cases hle : frameDuration ≤ e
  · rw [runLoop, dif_pos ⟨hfd, hle⟩, if_pos (by omega), if_pos hle]
    simp
  · rw [runLoop, dif_neg (by push_neg; intro _; linarith), if_neg hle]

/-- A reload that returned true took the success path: its whole result —
state with the new program and fresh timestamps, and the recorded call
sequence — is determined, with the old program's deletion listed between
the link and the field assignment. -/
theorem reload_success_elim (env : GLEnv) (st : ShaderState)
    (hok : (Shader.reload env st).ok = true) :
    Shader.reload env st =
      { ok := true
        state :=
          { st with
              programID := env.createProgram
              vertexLastModified := env.modTime st.vertexPath
              fragmentLastModified := env.modTime st.fragmentPath }
        events :=
          [GLEvent.compileStage Stage.vertex
            (env.compileShader Stage.vertex (env.readFile st.vertexPath)),
           GLEvent.compileStage Stage.fragment
            (env.compileShader Stage.fragment (env.readFile st.fragmentPath)),
           GLEvent.createProgram env.createProgram,
           GLEvent.attachShader env.createProgram
            (env.compileShader Stage.vertex (env.readFile st.vertexPath)),
           GLEvent.attachShader env.createProgram
            (env.compileShader Stage.fragment (env.readFile st.fragmentPath)),
           GLEvent.linkProgram env.createProgram,
           GLEvent.deleteShader
            (env.compileShader Stage.vertex (env.readFile st.vertexPath)),
           GLEvent.deleteShader
            (env.compileShader Stage.fragment (env.readFile st.fragmentPath))]
          ++ (if st.programID ≠ 0 then [GLEvent.deleteProgram st.programID]
              else [])
          ++ [GLEvent.setProgramField env.createProgram] } := by
  revert hok
  simp only [Shader.reload]
  by_cases h1 : env.readFile st.vertexPath = "" ∨ env.readFile st.fragmentPath = ""
  · rw [if_pos h1]
    intro hok
    exact absurd hok (by simp)
  · rw [if_neg h1]
    by_cases h2 : env.compileShader Stage.vertex (env.readFile st.vertexPath) = 0 ∨
        env.compileShader Stage.fragment (env.readFile st.fragmentPath) = 0
    · rw [if_pos h2]
      intro hok
      exact absurd hok (by simp)
    · rw [if_neg h2]
      by_cases h3 : env.linkStatus env.createProgram = false
      · rw [if_pos h3]
        intro hok
        exact absurd hok (by simp)
      · rw [if_neg h3]
        intro _
        rfl

/-! Claim theorems. -/

/-- C5: after `Camera.centerOn`, per axis: when the world extent is at
least the viewport extent the position is
`clamp(target, worldMin + half viewport, worldMax - half viewport)` —
in particular the target itself when it already lies in that range — and
when the world extent is smaller than the viewport extent the position is
the world midpoint on that axis regardless of the target. -/
theorem camera_centerOn_clamp_or_midpoint (cam : Camera) (t : Vector2) :
    (((cam.viewportWidth : ℚ) ≤ cam.worldMax.x - cam.worldMin.x →
      (cam.centerOn t).position.x =
        Camera.clamp t.x (cam.worldMin.x + (cam.viewportWidth : ℚ) / 2)
          (cam.worldMax.x - (cam.viewportWidth : ℚ) / 2)) ∧
     ((cam.viewportWidth : ℚ) ≤ cam.worldMax.x - cam.worldMin.x →
      cam.worldMin.x + (cam.viewportWidth : ℚ) / 2 ≤ t.x →
      t.x ≤ cam.worldMax.x - (cam.viewportWidth : ℚ) / 2 →
      (cam.centerOn t).position.x = t.x) ∧
     (cam.worldMax.x - cam.worldMin.x < (cam.viewportWidth : ℚ) →
      (cam.centerOn t).position.x = (cam.worldMax.x + cam.worldMin.x) / 2))
    ∧
    (((cam.viewportHeight : ℚ) ≤ cam.worldMax.y - cam.worldMin.y →
      (cam.centerOn t).position.y =
        Camera.clamp t.y (cam.worldMin.y + (cam.viewportHeight : ℚ) / 2)
          (cam.worldMax.y - (cam.viewportHeight : ℚ) / 2)) ∧
     ((cam.viewportHeight : ℚ) ≤ cam.worldMax.y - cam.worldMin.y →
      cam.worldMin.y + (cam.viewportHeight : ℚ) / 2 ≤ t.y →
      t.y ≤ cam.worldMax.y - (cam.viewportHeight : ℚ) / 2 →
      (cam.centerOn t).position.y = t.y) ∧
     (cam.worldMax.y - cam.worldMin.y < (cam.viewportHeight : ℚ) →
      (cam.centerOn t).position.y = (cam.worldMax.y + cam.worldMin.y) / 2)) := by
  have hx : (cam.centerOn t).position.x =
      if cam.worldMax.x - cam.worldMin.x < (cam.viewportWidth : ℚ) then
        (cam.worldMax.x + cam.worldMin.x) / 2
      else Camera.clamp t.x (cam.worldMin.x + (cam.viewportWidth : ℚ) / 2)
        (cam.worldMax.x - (cam.viewportWidth : ℚ) / 2) := rfl
  have hy : (cam.centerOn t).position.y =
      if cam.worldMax.y - cam.worldMin.y < (cam.viewportHeight : ℚ) then
        (cam.worldMax.y + cam.worldMin.y) / 2
      else Camera.clamp t.y (cam.worldMin.y + (cam.viewportHeight : ℚ) / 2)
        (cam.worldMax.y - (cam.viewportHeight : ℚ) / 2) := rfl
  refine ⟨⟨?_, ?_, ?_⟩, ?_, ?_, ?_⟩
  · intro h
    rw [hx, if_neg (not_lt.mpr h)]
  · intro h h1 h2
    rw [hx, if_neg (not_lt.mpr h)]
    unfold Camera.clamp
    rw [if_neg (not_lt.mpr h1), if_neg (not_lt.mpr h2)]
  · intro h
    rw [hx, if_pos h]
  · intro h
    rw [hy, if_neg (not_lt.mpr h)]
  · intro h h1 h2
    rw [hy, if_neg (not_lt.mpr h)]
    unfold Camera.clamp
    rw [if_neg (not_lt.mpr h1), if_neg (not_lt.mpr h2)]
  · intro h
    rw [hy, if_pos h]

/-- Witness for C5: for `camA` (viewport 100x50, world 200x30) and target
(-20, 10), the x axis clamps -20 up to 50 and the y axis, narrower than
the viewport, lands on the midpoint 15. -/
theorem camera_centerOn_clamp_or_midpoint_witness :
    (Camera.centerOn camA ⟨-20, 10⟩).position.x = 50
    ∧ (Camera.centerOn camA ⟨-20, 10⟩).position.y = 15 := by
  have h := camera_centerOn_clamp_or_midpoint camA ⟨-20, 10⟩
  constructor
  · rw [h.1.1 (by norm_num [camA])]
    norm_num [camA, Camera.clamp]
  · rw [h.2.2.2 (by norm_num [camA])]
    norm_num [camA]

/-- C8 (code bug): on the spec's 3x3 scenario grid, `isWalkable` does
classify WATER as non-walkable and GRASS as walkable, but `isSolid`
(`tileID != WATER`) reports the WATER cell as NOT solid and the GRASS
cell as solid — the exact opposite of the claimed classification. -/
theorem tilemap_isSolid_inverted_at_water :
    Tilemap.getTile wm3 1 1 = Tile.WATER
    ∧ Tilemap.isWalkable wm3 1 1 = false
    ∧ Tilemap.isSolid wm3 1 1 = false
    ∧ Tilemap.getTile wm3 0 0 = Tile.GRASS
    ∧ Tilemap.isWalkable wm3 0 0 = true
    ∧ Tilemap.isSolid wm3 0 0 = true := by
  decide

/-- C9: `setTile x y v` writes `v` at the storage slot indexed by the
stored tile id `getTile x y` — when that slot is in range the element
there becomes `v` — and whenever that id differs from the linear index
`y*width+x`, the cell (x,y) itself is left unchanged (the write went to
the wrong cell). -/
theorem tilemap_setTile_indexes_by_value (m : Tilemap) (x y : ℕ) (v : ℤ)
    (_ht : 0 ≤ m.getTile x y) :
    ((m.getTile x y).toNat < m.tiles.length →
      (m.setTile x y v).tiles.getD (m.getTile x y).toNat 0 = v)
    ∧ ((m.getTile x y).toNat ≠ y * m.width + x →
      (m.setTile x y v).getTile x y = m.getTile x y) := by
  constructor
  · intro hlen
    simp [Tilemap.setTile, List.getD_eq_getElem?_getD, List.getElem?_set_self,
      hlen]
  · intro hne
    show (m.tiles.set (m.getTile x y).toNat v).getD (y * m.width + x) 0
      = m.tiles.getD (y * m.width + x) 0
    rw [List.getD_eq_getElem?_getD, List.getD_eq_getElem?_getD,
      List.getElem?_set_ne hne]

/-- Witness for C9: on `idxMap`, cell (0,0) stores id 3 while its linear
index is 0; `setTile 0 0 9` leaves cell (0,0) at 3 and instead writes 9
into slot 3. -/
theorem tilemap_setTile_indexes_by_value_witness :
    ((Tilemap.setTile idxMap 0 0 9).tiles.getD (Tilemap.getTile idxMap 0 0).toNat 0 = 9)
    ∧ ((Tilemap.setTile idxMap 0 0 9).getTile 0 0 = Tilemap.getTile idxMap 0 0) := by
  have h := tilemap_setTile_indexes_by_value idxMap 0 0 9 (by decide)
  exact ⟨h.1 (by decide), h.2 (by decide)⟩

/-- C10: `WarpZone.contains` is the closed axis-aligned box test,
inclusive on all four edges, so every boundary point of a zone with
nonnegative extents is contained. -/
theorem warpZone_contains_closed_box (z : WarpZone) (p : Vector2) :
    (z.contains p = true ↔
      z.x ≤ p.x ∧ p.x ≤ z.x + z.width ∧ z.y ≤ p.y ∧ p.y ≤ z.y + z.height)
    ∧ (0 ≤ z.width → 0 ≤ z.height → z.onBoundary p → z.contains p = true) := by
  have hiff : z.contains p = true ↔
      z.x ≤ p.x ∧ p.x ≤ z.x + z.width ∧ z.y ≤ p.y ∧ p.y ≤ z.y + z.height := by
    simp [WarpZone.contains, and_assoc]
  refine ⟨hiff, fun hw hh hb => hiff.mpr ?_⟩
  rcases hb with ⟨hx, hy1, hy2⟩ | ⟨hy, hx1, hx2⟩
  · rcases hx with hx | hx <;> rw [hx] <;>
      exact ⟨by linarith, by linarith, hy1, hy2⟩
  · rcases hy with hy | hy <;> rw [hy] <;>
      exact ⟨hx1, hx2, by linarith, by linarith⟩

/-- Witness for C10: the spec's zone at the origin with width and height
10 contains both the corner (0,0) and the opposite corner (10,10). -/
theorem warpZone_contains_closed_box_witness :
    WarpZone.contains zone10 ⟨0, 0⟩ = true
    ∧ WarpZone.contains zone10 ⟨10, 10⟩ = true := by
  constructor
  · exact (warpZone_contains_closed_box zone10 ⟨0, 0⟩).2 (by norm_num [zone10])
      (by norm_num [zone10]) (Or.inl (by norm_num [zone10]))
  · exact (warpZone_contains_closed_box zone10 ⟨10, 10⟩).2 (by norm_num [zone10])
      (by norm_num [zone10]) (Or.inl (by norm_num [zone10]))

/-- C6: `update dt` on an active animation with more than one frame
accumulates `dt` and consumes whole `frameDuration` slices. Looping: the
frame advances by `⌊(elapsed+dt)/frameDuration⌋` modulo `frameCount` and
the accumulated time ends at the remainder. Non-looping: as soon as the
advance passes the last frame the frame is clamped to `frameCount - 1`
with the accumulated time forced to 0, and this hold persists: from the
last frame the frame index never moves again, and any later update that
again covers a whole frame re-zeroes the accumulated time. -/
theorem spriteAnimator_update_accumulate_consume
    (a : Animation) (f0 : ℕ) (e0 dt : ℚ)
    (hc : 1 < a.frameCount) (hfd : 0 < a.frameDuration)
    (hf : f0 < a.frameCount) (he : 0 ≤ e0 + dt) :
    (a.loop = true →
      SpriteAnimator.update ⟨some a, f0, e0⟩ dt =
        ⟨some a,
          (f0 + (⌊(e0 + dt) / a.frameDuration⌋).toNat) % a.frameCount,
          (e0 + dt) - ((⌊(e0 + dt) / a.frameDuration⌋).toNat : ℚ) * a.frameDuration⟩)
    ∧ (a.loop = false →
        ((a.frameCount - f0 : ℕ) : ℚ) * a.frameDuration ≤ e0 + dt →
        SpriteAnimator.update ⟨some a, f0, e0⟩ dt =
          ⟨some a, a.frameCount - 1, 0⟩)
    ∧ (a.loop = false → f0 = a.frameCount - 1 →
        (SpriteAnimator.update ⟨some a, f0, e0⟩ dt).currentFrame =
          a.frameCount - 1)
    ∧ (a.loop = false → f0 = a.frameCount - 1 → a.frameDuration ≤ e0 + dt →
        SpriteAnimator.update ⟨some a, f0, e0⟩ dt =
          ⟨some a, a.frameCount - 1, 0⟩) := by
  have hn : ⌊(e0 + dt) / a.frameDuration⌋ =
      ((⌊(e0 + dt) / a.frameDuration⌋).toNat : ℤ) :=
    (Int.toNat_of_nonneg (Int.floor_nonneg.mpr (div_nonneg he hfd.le))).symm
  refine ⟨?_, ?_, ?_, ?_⟩
  · intro hl
    simp only [SpriteAnimator.update, hl]
    rw [if_neg (by omega),
      runLoop_loop_closed a.frameCount a.frameDuration hfd (by omega)
        (⌊(e0 + dt) / a.frameDuration⌋).toNat (e0 + dt) f0 he hf hn]
  · intro hl hpass
    simp only [SpriteAnimator.update, hl]
    rw [if_neg (by omega)]
    have hk : a.frameCount - f0 = (a.frameCount - f0 - 1) + 1 := by omega
    have hcast : (((a.frameCount - f0 - 1 : ℕ) : ℚ) + 1) * a.frameDuration ≤
        e0 + dt := by
      have heq : ((a.frameCount - f0 : ℕ) : ℚ) =
          ((a.frameCount - f0 - 1 : ℕ) : ℚ) + 1 := by
        rw [hk]
        push_cast
        ring
      rw [← heq]
      exact hpass
    rw [runLoop_noLoop_clamps a.frameCount a.frameDuration hfd
      (a.frameCount - f0 - 1) f0 (e0 + dt) hk hcast]
  · intro hl hf0
    simp only [SpriteAnimator.update, hl]
    rw [if_neg (by omega), hf0,
      runLoop_terminal_hold a.frameCount a.frameDuration hfd (e0 + dt)]
    split_ifs <;> rfl
  · intro hl hf0 hle
    simp only [SpriteAnimator.update, hl]
    rw [if_neg (by omega), hf0,
      runLoop_terminal_hold a.frameCount a.frameDuration hfd (e0 + dt),
      if_pos hle]

/-- Witness for C6: the spec's two worked examples. Looping `walkAnim`
(4 frames of 0.1 s): one `update 0.45` from the initial state ends at
frame (0+4) mod 4 = 0 with 0.05 s accumulated. Non-looping `dieAnim`
(3 frames of 0.2 s): one `update 10` ends in the terminal hold, frame 2
with 0 accumulated. -/
theorem spriteAnimator_update_accumulate_consume_witness :
    SpriteAnimator.update ⟨some walkAnim, 0, 0⟩ (9/20)
      = ⟨some walkAnim, 0, 1/20⟩
    ∧ SpriteAnimator.update ⟨some dieAnim, 0, 0⟩ 10
      = ⟨some dieAnim, 2, 0⟩ := by
  constructor
  · have h := (spriteAnimator_update_accumulate_consume walkAnim 0 0 (9/20)
      (by norm_num [walkAnim]) (by norm_num [walkAnim])
      (by norm_num [walkAnim]) (by norm_num)).1 rfl
    rw [h]
    have hfl : ⌊((0 : ℚ) + 9/20) / walkAnim.frameDuration⌋ = 4 := by
      rw [show walkAnim.frameDuration = 1/10 from rfl]
      rw [Int.floor_eq_iff]
      norm_num
    rw [hfl]
    rw [show Int.toNat 4 = 4 from rfl]
    norm_num [walkAnim]
  · have h := (spriteAnimator_update_accumulate_consume dieAnim 0 0 10
      (by norm_num [dieAnim]) (by norm_num [dieAnim])
      (by norm_num [dieAnim]) (by norm_num)).2.1 rfl
      (by norm_num [dieAnim])
    rw [h]
    norm_num [dieAnim]

/-- C7 counterexample: for the looping 2-frame animation `spinAnim` with
1 s frames, a single `update 3` from the initial state runs the catch-up
loop 3 times, exceeding `frameCount = 2`; the claimed bound of at most
`frameCount` iterations per call is false. -/
theorem spriteAnimator_update_iterations_exceed_frameCount :
    SpriteAnimator.updateIterations ⟨some spinAnim, 0, 0⟩ 3 = 3
    ∧ spinAnim.frameCount = 2
    ∧ ¬ (SpriteAnimator.updateIterations ⟨some spinAnim, 0, 0⟩ 3 ≤
        spinAnim.frameCount) := by
  have hfl : ⌊((0 : ℚ) + 3) / spinAnim.frameDuration⌋ = ((3 : ℕ) : ℤ) := by
    rw [show spinAnim.frameDuration = 1 from rfl]
    norm_num
  have h3 : SpriteAnimator.updateIterations ⟨some spinAnim, 0, 0⟩ 3 = 3 := by
    simp only [SpriteAnimator.updateIterations]
    rw [if_neg (by norm_num [spinAnim]),
      show spinAnim.loop = true from rfl,
      runLoop_loop_closed spinAnim.frameCount spinAnim.frameDuration
        (by norm_num [spinAnim]) (by norm_num [spinAnim]) 3 ((0 : ℚ) + 3) 0
        (by norm_num) (by norm_num [spinAnim]) hfl]
  exact ⟨h3, rfl, by rw [h3]; norm_num [spinAnim]⟩

/-- C7 amended: the catch-up loop always terminates for a positive frame
duration, and for a NON-looping active animation it is indeed bounded by
`frameCount` iterations per call; for a looping animation, however, it
executes exactly `⌊(elapsed+dt)/frameDuration⌋` iterations, a finite
number that exceeds `frameCount` under a large enough `dt` spike. -/
theorem spriteAnimator_update_iterations_amended
    (a : Animation) (f0 : ℕ) (e0 dt : ℚ)
    (hfd : 0 < a.frameDuration) (hf : f0 < a.frameCount) (he : 0 ≤ e0 + dt) :
    (a.loop = false →
      SpriteAnimator.updateIterations ⟨some a, f0, e0⟩ dt ≤ a.frameCount)
    ∧ (a.loop = true → 1 < a.frameCount →
      SpriteAnimator.updateIterations ⟨some a, f0, e0⟩ dt
        = (⌊(e0 + dt) / a.frameDuration⌋).toNat) := by
  have hn : ⌊(e0 + dt) / a.frameDuration⌋ =
      ((⌊(e0 + dt) / a.frameDuration⌋).toNat : ℤ) :=
    (Int.toNat_of_nonneg (Int.floor_nonneg.mpr (div_nonneg he hfd.le))).symm
  constructor
  · intro hl
    simp only [SpriteAnimator.updateIterations, hl]
    by_cases h1 : a.frameCount ≤ 1
    · rw [if_pos h1]
      exact Nat.zero_le _
    · rw [if_neg h1]
      have hb := runLoop_noLoop_iterations_le a.frameCount a.frameDuration hfd
        (⌊(e0 + dt) / a.frameDuration⌋).toNat (e0 + dt) f0 rfl hf
      omega
  · intro hl h1
    simp only [SpriteAnimator.updateIterations, hl]
    rw [if_neg (by omega),
      runLoop_loop_closed a.frameCount a.frameDuration hfd (by omega)
        (⌊(e0 + dt) / a.frameDuration⌋).toNat (e0 + dt) f0 he hf hn]

/-- Witness for the amended C7: the non-looping `dieAnim` finishes an
`update 10` call within its `frameCount = 3` iteration bound. -/
theorem spriteAnimator_update_iterations_amended_witness :
    SpriteAnimator.updateIterations ⟨some dieAnim, 0, 0⟩ 10 ≤
      dieAnim.frameCount :=
  (spriteAnimator_update_iterations_amended dieAnim 0 0 10
    (by norm_num [dieAnim]) (by norm_num [dieAnim]) (by norm_num)).1 rfl

/-- C1: every failed reload attempt — unreadable/empty source, a compile
error in either stage, or a link error — reports false to the caller, and
a false report always comes with the shader's fields exactly as they were
(same program handle, same recorded timestamps), so `use()` still binds
the last-good program. -/
theorem shader_reload_failure_rolls_back (env : GLEnv) (st : ShaderState) :
    ((Shader.reload env st).ok = false → (Shader.reload env st).state = st)
    ∧ (env.readFile st.vertexPath = "" ∨ env.readFile st.fragmentPath = "" →
      (Shader.reload env st).ok = false)
    ∧ (env.compileShader Stage.vertex (env.readFile st.vertexPath) = 0 ∨
       env.compileShader Stage.fragment (env.readFile st.fragmentPath) = 0 →
      (Shader.reload env st).ok = false)
    ∧ (env.linkStatus env.createProgram = false →
      (Shader.reload env st).ok = false) := by
  simp only [Shader.reload]
  split_ifs with h1 h2 h3 <;> simp_all

/-- Witness for C1: with every file unreadable, reload on `stApp` returns
false and leaves the state — handle 3 and both timestamps — unchanged. -/
theorem shader_reload_failure_rolls_back_witness :
    (Shader.reload emptyReadEnv stApp).ok = false
    ∧ (Shader.reload emptyReadEnv stApp).state = stApp := by
  have h := shader_reload_failure_rolls_back emptyReadEnv stApp
  have hok : (Shader.reload emptyReadEnv stApp).ok = false := h.2.1 (Or.inl rfl)
  exact ⟨hok, h.1 hok⟩

/-- C2 (code bug): when construction reaches the link step and the link
fails (`badLinkEnv` reports link status false for every program), the
constructor still stores the freshly created program handle 7 — a nonzero
handle that was never successfully linked is observable by the caller. -/
theorem shader_construct_exposes_unlinked_program :
    (Shader.construct badLinkEnv "shader.vert" "shader.frag").programID = 7
    ∧ (Shader.construct badLinkEnv "shader.vert" "shader.frag").programID ≠ 0
    ∧ badLinkEnv.linkStatus
        (Shader.construct badLinkEnv "shader.vert" "shader.frag").programID
      = false := by
  refine ⟨rfl, by decide, rfl⟩

/-- C3 counterexample: in a fully successful reload of `stApp` (old
program 3, new program 7), the recorded sequence shows `glDeleteProgram 3`
strictly before the `programID = 7` assignment, and no assignment-first
ordering: the claim that the handle field is reassigned before the old
handle is released is false on this input. -/
theorem shader_reload_releases_old_before_assign :
    (Shader.reload okEnv stApp).ok = true
    ∧ occursBefore (Shader.reload okEnv stApp).events
        (GLEvent.deleteProgram 3) (GLEvent.setProgramField 7) = true
    ∧ occursBefore (Shader.reload okEnv stApp).events
        (GLEvent.setProgramField 7) (GLEvent.deleteProgram 3) = false := by
  decide

/-- C3 amended: in a successful reload with a nonzero old program, the
new program is fully built first (its link precedes the old handle's
release), then the old handle is released, and only after that is the
handle field assigned the new program — release-then-assign, the reverse
of the claimed assign-then-release, still after the new handle is fully
built. -/
theorem shader_reload_swap_order (env : GLEnv) (st : ShaderState)
    (hok : (Shader.reload env st).ok = true) (h0 : st.programID ≠ 0) :
    occursBefore (Shader.reload env st).events
      (GLEvent.linkProgram env.createProgram)
      (GLEvent.deleteProgram st.programID) = true
    ∧ occursBefore (Shader.reload env st).events
      (GLEvent.deleteProgram st.programID)
      (GLEvent.setProgramField env.createProgram) = true := by
  rw [reload_success_elim env st hok]
  rw [if_pos h0]
  constructor <;> simp [occursBefore]

/-- Witness for the amended C3: the ordering facts hold on the concrete
successful reload of `stApp` under `okEnv`. -/
theorem shader_reload_swap_order_witness :
    occursBefore (Shader.reload okEnv stApp).events
      (GLEvent.linkProgram okEnv.createProgram)
      (GLEvent.deleteProgram stApp.programID) = true
    ∧ occursBefore (Shader.reload okEnv stApp).events
      (GLEvent.deleteProgram stApp.programID)
      (GLEvent.setProgramField okEnv.createProgram) = true :=
  shader_reload_swap_order okEnv stApp (by decide) (by decide)

/-- C4 (code bug): `FileWatcher.updateTimestamps` does not refresh the
recorded timestamps (its assignment writes into the temporary returned by
`getModTime`), so an immediately following `hasChanged` still reports
true on the concrete watcher `fwA` whose file moved from time 0 to 1 —
against the claim that it reports false. The Shader half of the claim
does hold: right after a successful `reload`, `checkReload` finds no
timestamp difference and returns false without touching the state. -/
theorem fileWatcher_updateTimestamps_ineffective :
    FileWatcher.hasChanged fsA (FileWatcher.updateTimestamps fsA fwA) = true
    ∧ (∀ (env : GLEnv) (st : ShaderState),
        (Shader.reload env st).ok = true →
        Shader.checkReload env (Shader.reload env st).state
          = (false, (Shader.reload env st).state)) := by
  constructor
  · decide
  · intro env st hok
    have hs := reload_success_elim env st hok
    have hchg : Shader.hasFileChanged env (Shader.reload env st).state
        = false := by
      rw [hs]
      simp [Shader.hasFileChanged]
    rw [Shader.checkReload, if_neg (by simp [hchg])]

end Engine
